import Mathlib

/-!
# Aquasentinel dashboard — verification of the scan-lifecycle controller

Shallow embedding of `src/app.js` (the live dashboard script).  The
embedding follows the *effective* JavaScript program: `app.js` declares
`async function startScanning()` twice (lines 165–234 and lines 353–399);
JavaScript function declarations are hoisted and the later declaration
wins, so the second body — which has no `AbortController`, passes no
`signal` to `fetch`, and unconditionally hides the overlay in a 500 ms
`setTimeout` from its `finally` block — is the one every caller invokes.
Consequently the module-level `scanController` variable is never assigned
a controller and `cancelScanning`'s `scanController.abort()` branch is
dead code.

Numbers are modelled as `ℚ` (the values involved are finite decimals;
no NaN/Infinity arises on the modelled paths), JS `Math.round` as
`⌊x + 1/2⌋` (round half toward +∞), and DOM state as explicit record
fields.  `Math.random()` is modelled as an ambient stream `ℕ → ℚ` of
draws in `[0, 1)`, one per call site evaluation.
-/

namespace Aquasentinel

/-- The six known overlay-layer keys offered by the analysis endpoint. -/
inductive LayerKey
  | analytics | depth | water_mask | winter | summer | monsoon
deriving DecidableEq, Repr, Fintype

/-- The `layers` object of an analysis response: each known key maps to
zero or one tile-URL string (`none` models an absent JSON field). -/
structure Layers where
  analytics : Option String
  depth : Option String
  water_mask : Option String
  winter : Option String
  summer : Option String
  monsoon : Option String
deriving DecidableEq, Repr

/-- Property access `layers[key]` on the `layers` object. -/
def Layers.get (l : Layers) : LayerKey → Option String
  | .analytics => l.analytics
  | .depth => l.depth
  | .water_mask => l.water_mask
  | .winter => l.winter
  | .summer => l.summer
  | .monsoon => l.monsoon

/-- JS truthiness of an optional string value: `undefined`/`null` and the
empty string are falsy, every other string is truthy. -/
def truthy : Option String → Bool
  | none => false
  | some s => s ≠ ""

/-- The optional `seasonal` block of an analysis response. -/
structure Seasonal where
  summer : ℚ
  monsoon : ℚ
  winter : ℚ
deriving DecidableEq, Repr

/-- An analysis response body (`data` in `startScanning`): metric fields,
the layer-URL mapping, the optional seasonal block, and the optional
application-level `error` field. -/
structure AnalysisData where
  area : ℚ
  volume : ℚ
  avg_elevation : ℚ
  max_volume : Option ℚ
  layers : Layers
  seasonal : Option Seasonal
  error : Option String
deriving DecidableEq, Repr

/-- JS `Math.round`: round half toward positive infinity. -/
def jsRound (x : ℚ) : ℤ := ⌊x + 1/2⌋

/-- Capacity estimate,
`const capacity = data.max_volume > 0 ? data.max_volume : data.volume * 1.5;`
(`app.js` line 252).  An absent `max_volume` compares as `undefined > 0`,
which is false, so the fallback `volume * 1.5` is used. -/
def capacity (max_volume : Option ℚ) (volume : ℚ) : ℚ :=
  match max_volume with
  | some m => if 0 < m then m else volume * (3/2)
  | none => volume * (3/2)

/-- Fill percentage,
`const fillPct = capacity > 0 ? Math.min(100, Math.round((data.volume / capacity) * 100)) : 0;`
(`app.js` line 253).  Note the code clamps only from above with
`Math.min(100, ·)`; there is no clamp at 0. -/
def fillPctOf (volume : ℚ) (max_volume : Option ℚ) : ℤ :=
  let c := capacity max_volume volume
  if 0 < c then min 100 (jsRound (volume / c * 100)) else 0

/-- Colour bucket of the fill bar (`app.js` lines 260–263). -/
inductive BarColor | red | blue | cyan
deriving DecidableEq, Repr

/-- The metric panel as painted by `updateMetrics` (`app.js` 247–266):
area and volume texts, the fill bar percentage and colour class, and the
elevation text. -/
structure MetricsView where
  areaText : ℚ
  volumeText : ℚ
  fillPct : ℤ
  barColor : BarColor
  elevText : ℚ
deriving DecidableEq, Repr

/-- `updateMetrics(data)` (`app.js` 247–266) as a pure function from the
response to the painted metric panel. -/
def metricsView (d : AnalysisData) : MetricsView :=
  let fillPct := fillPctOf d.volume d.max_volume
  { areaText := d.area
    volumeText := d.volume
    fillPct := fillPct
    barColor :=
      if fillPct < 30 then .red
      else if fillPct > 80 then .blue
      else .cyan
    elevText := d.avg_elevation }

/-- Modelled from the spec: the fill-percentage formula as §4.1 words it,
`fillPct = clamp(round(volume / capacity * 100), 0, 100)` when
`capacity > 0`, else `0` — i.e. clamped on *both* sides. -/
def fillPctSpec (volume : ℚ) (max_volume : Option ℚ) : ℤ :=
  let c := capacity max_volume volume
  if 0 < c then max 0 (min 100 (jsRound (volume / c * 100))) else 0

/-- Modelled from the spec, amended: the same formula with the clamp only
from above, `fillPct = min(100, round(volume / capacity * 100))` when
`capacity > 0`, else `0`. -/
def fillPctSpecAmended (volume : ℚ) (max_volume : Option ℚ) : ℤ :=
  let c := capacity max_volume volume
  if 0 < c then min 100 (jsRound (volume / c * 100)) else 0

/-- A response with negative `volume` but positive `max_volume`: the code
then displays a negative fill percentage. -/
def resNegVol : AnalysisData :=
  { area := 1, volume := -10, avg_elevation := 2, max_volume := some 15
    layers := ⟨none, none, none, none, none, none⟩
    seasonal := none, error := none }

/-- A second such response, used for the C4 bound violation. -/
def resNegVol2 : AnalysisData :=
  { area := 1, volume := -20, avg_elevation := 2, max_volume := some 10
    layers := ⟨none, none, none, none, none, none⟩
    seasonal := none, error := none }

end Aquasentinel

namespace Aquasentinel

/-- C3, counterexample.  At `volume = -10`, `max_volume = 15` the code
(`updateMetrics`, app.js 247–266) displays `fillPct = min(100, round(-10/15*100)) = -67`,
while the claimed formula `clamp(round(volume/capacity*100), 0, 100)`
yields `0`: the claimed lower clamp at 0 does not exist in the code. -/
theorem C3_clamp_counterexample :
    (metricsView resNegVol).fillPct = -67 ∧
    fillPctSpec resNegVol.volume resNegVol.max_volume = 0 ∧
    (metricsView resNegVol).fillPct ≠ fillPctSpec resNegVol.volume resNegVol.max_volume := by
  have h1 : (metricsView resNegVol).fillPct = -67 := by
    show fillPctOf (-10) (some 15) = -67
    unfold fillPctOf capacity jsRound
    norm_num
  have h2 : fillPctSpec resNegVol.volume resNegVol.max_volume = 0 := by
    show fillPctSpec (-10) (some 15) = 0
    unfold fillPctSpec capacity jsRound
    norm_num
  refine ⟨h1, h2, ?_⟩
  rw [h1, h2]; decide

/-- C3, amended.  Applying a result computes
`capacity = max_volume if max_volume > 0 else volume * 1.5` and
`fillPct = min(100, round(volume / capacity * 100))` when `capacity > 0`,
else `0` — clamped only from above.  In particular `volume = 12.8`,
`max_volume = 15.0` displays `fillPct = 85`, and `volume = 4.52` with
`max_volume` absent gives `capacity = 6.78` and displays `fillPct = 67`. -/
theorem C3_fill_formula_amended :
    (∀ d : AnalysisData,
        (metricsView d).fillPct = fillPctSpecAmended d.volume d.max_volume) ∧
    (∀ d : AnalysisData, d.volume = 64/5 → d.max_volume = some 15 →
        (metricsView d).fillPct = 85) ∧
    (∀ d : AnalysisData, d.volume = 113/25 → d.max_volume = none →
        capacity d.max_volume d.volume = 339/50 ∧ (metricsView d).fillPct = 67) := by
  refine ⟨fun d => rfl, fun d hv hm => ?_, fun d hv hm => ?_⟩
  · show fillPctOf d.volume d.max_volume = 85
    rw [hv, hm]
    unfold fillPctOf capacity jsRound
    norm_num
  · rw [hv, hm]
    constructor
    · unfold capacity; norm_num
    · show fillPctOf d.volume d.max_volume = 67
      rw [hv, hm]
      unfold fillPctOf capacity jsRound
      norm_num

/-- C4, counterexample.  The claim quantifies over *any* floats: at
`volume = -20`, `max_volume = 10` the displayed fill percentage is
`-200`, violating `0 ≤ fillPct`. -/
theorem C4_bounds_counterexample :
    (metricsView resNegVol2).fillPct = -200 ∧
    ¬ (0 ≤ (metricsView resNegVol2).fillPct ∧ (metricsView resNegVol2).fillPct ≤ 100) := by
  have h1 : (metricsView resNegVol2).fillPct = -200 := by
    show fillPctOf (-20) (some 10) = -200
    unfold fillPctOf capacity jsRound
    norm_num
  exact ⟨h1, by rw [h1]; decide⟩

/-- C4, amended.  For every result with nonnegative `volume` (and any
optional `max_volume`), the displayed fill percentage satisfies
`0 ≤ fillPct ≤ 100`. -/
theorem C4_fillPct_bounds (d : AnalysisData) (h : 0 ≤ d.volume) :
    0 ≤ (metricsView d).fillPct ∧ (metricsView d).fillPct ≤ 100 := by
  show 0 ≤ fillPctOf d.volume d.max_volume ∧ fillPctOf d.volume d.max_volume ≤ 100
  unfold fillPctOf
  by_cases hpos : 0 < capacity d.max_volume d.volume
  · simp only [hpos, if_true]
    unfold jsRound
    have hx : (0:ℚ) ≤ d.volume / capacity d.max_volume d.volume * 100 :=
      mul_nonneg (div_nonneg h hpos.le) (by norm_num)
    have hx2 : (0:ℚ) ≤ d.volume / capacity d.max_volume d.volume * 100 + 1/2 := by
      linarith
    exact ⟨le_min (by norm_num) (Int.floor_nonneg.mpr hx2), min_le_left _ _⟩
  · simp [hpos]

/-- The spec's own worked example: `volume = 12.8`, `max_volume = 15`. -/
def resExample : AnalysisData :=
  { area := 2, volume := 64/5, avg_elevation := 3, max_volume := some 15
    layers := ⟨none, none, none, none, none, none⟩
    seasonal := none, error := none }

/-- Witness for `C4_fillPct_bounds` at `resExample`. -/
theorem C4_fillPct_bounds_witness :
    0 ≤ (metricsView resExample).fillPct ∧ (metricsView resExample).fillPct ≤ 100 :=
  C4_fillPct_bounds resExample (by norm_num [resExample])

/-! ## Layer control (`updateLayerControl`, app.js 290–349)

`updateLayerControl` replaces the shared overlay group, clears the
`#layerControl` container and calls `createToggle` once per known key, in
the source order with the source labels, colours, and `isDefault` flags:
`analytics` and `depth` are created with `isDefault = true`, every other
key with the default `false`.  `createToggle` returns without creating
anything when `layers[key]` is falsy; otherwise it renders one checkbox
(checked iff `isDefault`) and auto-activates the overlay iff `isDefault`. -/

/-- One rendered toggle row: its key, label, colour dot, the checkbox
state, and whether its overlay is currently rendered in the shared
overlay group. -/
structure LayerToggle where
  key : LayerKey
  label : String
  color : String
  checked : Bool
  overlayActive : Bool
deriving DecidableEq, Repr

/-- The six `createToggle(key, label, color, isDefault)` calls of
`updateLayerControl` (app.js 339–346), in source order. -/
def layerSpecs : List (LayerKey × String × String × Bool) :=
  [(.analytics, "Depth Contours", "#ffffff", true),
   (.depth, "Bathymetry", "#0077b6", true),
   (.water_mask, "Water Extent", "#00FFFF", false),
   (.winter, "Winter Spread", "#0891b2", false),
   (.summer, "Summer Spread", "#fb923c", false),
   (.monsoon, "Monsoon Spread", "#16a34a", false)]

/-- The toggle rows built by `updateLayerControl(layers)`: one row per
truthy key (`if (!layers[key]) return;`), checked and auto-activated iff
the key is a default. -/
def layerToggles (layers : Layers) : List LayerToggle :=
  layerSpecs.filterMap fun s =>
    if truthy (layers.get s.1) then
      some { key := s.1, label := s.2.1, color := s.2.2.1,
             checked := s.2.2.2, overlayActive := s.2.2.2 }
    else none

/-! ## Per-key overlay instances (`toggleLayer` closure, app.js 315–334)

Each `createToggle` closes over its own `activeLayer` (initially `null`)
and the shared `overlayLayerGroup`.  `toggleLayer(true)` first removes the
old instance if one exists, then creates a fresh tile layer and adds it to
the group; `toggleLayer(false)` removes the instance if one exists.  The
model identifies instances by a fresh counter and records the key's
instances currently present in the shared group. -/

/-- The closure state of one key's `toggleLayer`: the `activeLayer`
variable (instance id or `null`), the list of this key's instances in the
shared overlay group, and a fresh-id counter. -/
structure ToggleState where
  active : Option ℕ
  group : List ℕ
  next : ℕ
deriving DecidableEq, Repr

/-- Checkbox change handler `toggleLayer(isChecked)` (app.js 317–329). -/
def toggleLayer (isChecked : Bool) (s : ToggleState) : ToggleState :=
  if isChecked then
    let g := match s.active with
      | some l => s.group.erase l
      | none => s.group
    { active := some s.next, group := s.next :: g, next := s.next + 1 }
  else
    match s.active with
    | some l => { active := none, group := s.group.erase l, next := s.next }
    | none => s

/-- Closure state right after `createToggle` runs: `activeLayer = null`,
then `if (isDefault) toggleLayer(true)` (app.js 315, 334). -/
def initToggle (isDefault : Bool) : ToggleState :=
  if isDefault then toggleLayer true ⟨none, [], 0⟩ else ⟨none, [], 0⟩

/-- Invariant of a key's closure state: the shared group holds exactly the
instance recorded in `activeLayer` (and ids stay below the counter). -/
def ToggleInv (s : ToggleState) : Prop :=
  match s.active with
  | some l => s.group = [l] ∧ l < s.next
  | none => s.group = []

theorem toggleLayer_inv (b : Bool) (s : ToggleState) (h : ToggleInv s) :
    ToggleInv (toggleLayer b s) := by
  cases b with
  | true =>
    cases ha : s.active with
    | none =>
      unfold ToggleInv at h
      rw [ha] at h
      simp [toggleLayer, ToggleInv, ha, h]
    | some l =>
      unfold ToggleInv at h
      rw [ha] at h
      simp [toggleLayer, ToggleInv, ha, h.1]
  | false =>
    cases ha : s.active with
    | none => simpa [toggleLayer, ha] using h
    | some l =>
      unfold ToggleInv at h
      rw [ha] at h
      simp [toggleLayer, ToggleInv, ha, h.1]

theorem foldl_toggleLayer_inv (events : List Bool) (s : ToggleState)
    (h : ToggleInv s) :
    ToggleInv (events.foldl (fun st b => toggleLayer b st) s) := by
  induction events generalizing s with
  | nil => exact h
  | cons b bs ih => exact ih _ (toggleLayer_inv b s h)

/-- C6.  For either initial default flag and every sequence of toggle
events, the shared overlay group never holds more than one instance for
the key; moreover toggling on while already on removes the old instance:
the new group consists exactly of the freshly created instance. -/
theorem C6_at_most_one_overlay_instance (isDefault : Bool) (events : List Bool) :
    ((events.foldl (fun st b => toggleLayer b st) (initToggle isDefault)).group).length ≤ 1 ∧
    (∀ s : ToggleState, ToggleInv s → ∀ l, s.active = some l →
      (toggleLayer true s).group = [s.next] ∧ l ∉ (toggleLayer true s).group) := by
  constructor
  · have hinit : ToggleInv (initToggle isDefault) := by
      cases isDefault <;> simp [initToggle, toggleLayer, ToggleInv]
    have h := foldl_toggleLayer_inv events _ hinit
    unfold ToggleInv at h
    rcases hval : (events.foldl (fun st b => toggleLayer b st) (initToggle isDefault)).active with
      _ | l
    · rw [hval] at h; simp [h]
    · rw [hval] at h; simp [h.1]
  · intro s hs l hl
    unfold ToggleInv at hs
    rw [hl] at hs
    constructor
    · simp [toggleLayer, hl, hs.1]
    · simp [toggleLayer, hl, hs.1]
      omega

/-- A result whose `layers` mapping contains (truthy) URLs for exactly
`analytics` and `depth`. -/
def layersAD : Layers :=
  ⟨some "https://tiles/analytics", some "https://tiles/depth",
   none, none, none, none⟩

/-- C7.  Rebuilding the layer control from a result carrying only
`analytics` and `depth` creates exactly those two toggles, both checked
and auto-activated; no toggle exists for any absent key, and among the six
`createToggle` calls only `analytics` and `depth` pass `isDefault = true`. -/
theorem C7_two_default_toggles :
    (layerToggles layersAD).length = 2 ∧
    (layerToggles layersAD).map (fun t => t.key) = [LayerKey.analytics, LayerKey.depth] ∧
    (∀ t ∈ layerToggles layersAD, t.checked = true ∧ t.overlayActive = true) ∧
    (∀ k : LayerKey,
      (∃ t ∈ layerToggles layersAD, t.key = k) ↔ truthy (layersAD.get k) = true) ∧
    (∀ s ∈ layerSpecs, s.2.2.2 = true ↔ (s.1 = LayerKey.analytics ∨ s.1 = LayerKey.depth)) ∧
    layerSpecs.map (fun s => s.1) =
      [LayerKey.analytics, LayerKey.depth, LayerKey.water_mask,
       LayerKey.winter, LayerKey.summer, LayerKey.monsoon] := by
  refine ⟨rfl, rfl, ?_, ?_, ?_, rfl⟩ <;> decide

/-! ## The scan-lifecycle controller

The observable application state: the module-level `state` object of
`app.js`, the DOM pieces the controller mutates (overlay, status text,
metric panel, charts, layer control, toast log), the module-level
`scanController` variable, and whether an analysis request is in flight.

The event-loop steps modelled, all from the *effective* program (see the
file header: the second `startScanning` declaration shadows the first):

* `onMapClick` — map click / draw-created handler (app.js 129–161);
* `startScanningBegin` — the synchronous prefix of `startScanning`
  up to the `await fetch` (app.js 354–368);
* `startScanningResolveNow` — the continuation once the fetch resolves:
  success path, application-error path (`data.error` truthy), and
  transport-error path (app.js 370–392);
* `scanFinallyTimeout` — the 500 ms `setTimeout` callback queued by the
  `finally` block, which hides the overlay and clears `isScanning`
  (app.js 393–398);
* `cancelScanning` — the cancel button handler (app.js 236–245).

Since the effective `startScanning` never assigns `scanController` and
passes no `signal` to `fetch`, `cancelScanning`'s `abort()` branch never
runs and, even if it did, no request observes the signal: a pending
request always resolves through `startScanningResolveNow`. -/

/-- Interaction mode, `state.mode`. -/
inductive Mode | click | draw
deriving DecidableEq, Repr

/-- Notification style passed to `showToast(msg, type)`. -/
inductive ToastKind | info | success | error
deriving DecidableEq, Repr

/-- The observable application state (module `state` object plus the DOM
pieces the controller mutates). -/
structure AppState where
  mode : Mode
  currentLat : ℚ
  currentLng : ℚ
  currentArea : ℚ
  currentVol : ℚ
  isScanning : Bool
  stateLayers : Layers
  dispLat : ℚ
  dispLng : ℚ
  markerCount : ℕ
  overlayVisible : Bool
  statusText : String
  statusRed : Bool
  metrics : MetricsView
  trend : List ℚ
  seasonalChart : List ℚ
  layerCtl : List LayerToggle
  layerPanelHidden : Bool
  toasts : List (String × ToastKind)
  scanController : Bool
  pendingRequest : Option (ℚ × ℚ)
deriving DecidableEq, Repr

/-- Toast helper `showToast(msg, type)` (app.js 276–285): appends one
notification to the toast log. -/
def showToast (msg : String) (k : ToastKind) (s : AppState) : AppState :=
  { s with toasts := s.toasts ++ [(msg, k)] }

/-- State effect of `updateMetrics(data)` (app.js 247–266). -/
def updateMetrics (d : AnalysisData) (s : AppState) : AppState :=
  { s with metrics := metricsView d }

/-- The synthesized 12-point monthly trend of `updateCharts` (app.js
458–459): `Array.from({length: 12}, () => base * (0.8 + Math.random() * 0.4))`,
with the i-th `Math.random()` call drawing `rand i`. -/
def trendSim (vol : ℚ) (rand : ℕ → ℚ) : List ℚ :=
  (List.range 12).map fun i => vol * (4/5 + rand i * (2/5))

/-- State effect of `updateCharts(vol, seasonal)` (app.js 456–468): the
trend chart is always overwritten with synthesized data; the seasonal
chart only when `seasonal` is truthy. -/
def updateCharts (vol : ℚ) (seasonal : Option Seasonal) (rand : ℕ → ℚ)
    (s : AppState) : AppState :=
  let t := { s with trend := trendSim vol rand }
  match seasonal with
  | some se => { t with seasonalChart := [se.summer, se.monsoon, se.winter] }
  | none => t

/-- State effect of `updateLayerControl(layers)` (app.js 290–349): the
control list is rebuilt and the panel unhidden (the shared overlay group
is replaced, so exactly the default toggles are rendered). -/
def updateLayerControl (layers : Layers) (s : AppState) : AppState :=
  { s with layerCtl := layerToggles layers, layerPanelHidden := false }

/-- Synchronous prefix of the effective `startScanning` (app.js 354–368):
set `isScanning`, show the overlay, set the status text, and issue the
POST (recorded as the pending request).  No `AbortController` is created
and no signal is attached to the request. -/
def startScanningBegin (s : AppState) : AppState :=
  { s with isScanning := true, overlayVisible := true,
           statusText := "Analyzing Satellite Data...",
           pendingRequest := some (s.currentLat, s.currentLng) }

/-- Outcome of the `fetch`: a transport-failed response (non-2xx or
network error) or a transport-successful one carrying a parsed body. -/
inductive Response
  | netOk (d : AnalysisData)
  | netFail
deriving DecidableEq, Repr

/-- Success path of the effective `startScanning` (app.js 375–385). -/
def scanSuccess (d : AnalysisData) (rand : ℕ → ℚ) (s : AppState) : AppState :=
  let s1 := { s with currentArea := d.area, currentVol := d.volume,
                     stateLayers := d.layers }
  let s2 := updateMetrics d s1
  let s3 := updateCharts d.volume d.seasonal rand s2
  let s4 := updateLayerControl d.layers s3
  let s5 := { s4 with statusText := "Complete." }
  showToast "Analysis Complete." .success s5

/-- Catch block of the effective `startScanning` (app.js 387–392):
`const errMsg = err.message || "Unknown Error"`, error toast, status text
"Error." with the red failure class. -/
def scanCatch (msg : String) (s : AppState) : AppState :=
  let errMsg := if msg = "" then "Unknown Error" else msg
  let s1 := showToast ("Analysis Failed: " ++ errMsg) .error s
  { s1 with statusText := "Error.", statusRed := true }

/-- Continuation of the effective `startScanning` after the fetch
resolves (app.js 370–392): `if (!response.ok) throw`, then
`if (data.error) throw`, else the success path. -/
def startScanningResolveNow (r : Response) (rand : ℕ → ℚ) (s : AppState) : AppState :=
  let s0 := { s with pendingRequest := none }
  match r with
  | .netFail => scanCatch "Analysis Service Failed" s0
  | .netOk d =>
    if truthy d.error then scanCatch (d.error.getD "") s0
    else scanSuccess d rand s0

/-- The 500 ms `setTimeout` callback queued by the `finally` block of the
effective `startScanning` (app.js 394–397). -/
def scanFinallyTimeout (s : AppState) : AppState :=
  { s with overlayVisible := false, isScanning := false }

/-- Cancel handler `cancelScanning()` (app.js 236–245).  The
`scanController.abort()` branch nulls the module variable when set, but in
the effective program it is never set, and no fetch carries the signal, so
aborting has no effect on a pending request.  The handler then always
hides the overlay synchronously, clears `isScanning`, clears the marker
layer group, and shows the informational toast. -/
def cancelScanning (s : AppState) : AppState :=
  let s0 := if s.scanController then { s with scanController := false } else s
  let s1 := { s0 with overlayVisible := false, isScanning := false,
                      markerCount := 0 }
  showToast "Cancelled." .info s1

/-- A map click or draw-created gesture delivered to `onMapClick`
(draw-created events arrive with `isDraw = true`, app.js 91–97). -/
structure ClickEvent where
  lat : ℚ
  lng : ℚ
  isDraw : Bool
deriving DecidableEq, Repr

/-- Click handler `onMapClick(e)` (app.js 129–161): guarded by
`isScanning` and by draw mode; otherwise records the coordinates, updates
the coordinate display, replaces the marker, and calls `startScanning`
(whose synchronous prefix runs immediately). -/
def onMapClick (e : ClickEvent) (s : AppState) : AppState :=
  if s.isScanning = true then s
  else if s.mode = Mode.draw ∧ e.isDraw = false then s
  else
    startScanningBegin
      { s with currentLat := e.lat, currentLng := e.lng,
               dispLat := e.lat, dispLng := e.lng,
               markerCount := 1 }

/-- A quiescent application state: nothing scanned yet, empty toast log,
no pending request. -/
def idleState : AppState :=
  { mode := .click, currentLat := 0, currentLng := 0,
    currentArea := 0, currentVol := 0, isScanning := false,
    stateLayers := ⟨none, none, none, none, none, none⟩,
    dispLat := 0, dispLng := 0, markerCount := 0,
    overlayVisible := false, statusText := "", statusRed := false,
    metrics := ⟨0, 0, 0, .cyan, 0⟩, trend := [], seasonalChart := [0, 0, 0],
    layerCtl := [], layerPanelHidden := true, toasts := [],
    scanController := false, pendingRequest := none }

/-- A successful analysis response (the spec's worked example values). -/
def resGood : AnalysisData :=
  { area := 5, volume := 64/5, avg_elevation := 3, max_volume := some 15
    layers := layersAD, seasonal := some ⟨1, 2, 3⟩, error := none }

/-- A second successful response, `volume = 10` with `max_volume` absent. -/
def resMid : AnalysisData :=
  { area := 2, volume := 10, avg_elevation := 1, max_volume := none
    layers := ⟨none, some "https://tiles/depth2", none, none, none, none⟩
    seasonal := none, error := none }

/-- The spec's second worked example: `volume = 4.52`, `max_volume` absent. -/
def resMid2 : AnalysisData :=
  { area := 2, volume := 113/25, avg_elevation := 1, max_volume := none
    layers := ⟨none, none, none, none, none, none⟩
    seasonal := none, error := none }

/-- A transport-successful response whose body carries an application
error. -/
def resErr : AnalysisData :=
  { area := 0, volume := 0, avg_elevation := 0, max_volume := none
    layers := ⟨none, none, none, none, none, none⟩
    seasonal := none, error := some "X" }

/-- C1.  The claim says a cancelled (or superseded) session's eventual
resolution mutates no displayed state.  The effective code violates it: a
scan started by a map click and then cancelled leaves its request pending
(no abort signal exists), and when the response arrives the success path
still runs — metrics (fill percentage becomes 85), layer control and
trend chart are all overwritten by the stale result. -/
theorem C1_cancelled_scan_result_still_applied :
    (cancelScanning (onMapClick ⟨10, 20, false⟩ idleState)).isScanning = false ∧
    (cancelScanning (onMapClick ⟨10, 20, false⟩ idleState)).overlayVisible = false ∧
    (startScanningResolveNow (.netOk resGood) (fun _ => 1/2)
        (cancelScanning (onMapClick ⟨10, 20, false⟩ idleState))).metrics.fillPct = 85 ∧
    (cancelScanning (onMapClick ⟨10, 20, false⟩ idleState)).metrics.fillPct = 0 ∧
    (startScanningResolveNow (.netOk resGood) (fun _ => 1/2)
        (cancelScanning (onMapClick ⟨10, 20, false⟩ idleState))).metrics ≠
      (cancelScanning (onMapClick ⟨10, 20, false⟩ idleState)).metrics ∧
    (startScanningResolveNow (.netOk resGood) (fun _ => 1/2)
        (cancelScanning (onMapClick ⟨10, 20, false⟩ idleState))).layerCtl ≠
      (cancelScanning (onMapClick ⟨10, 20, false⟩ idleState)).layerCtl ∧
    (startScanningResolveNow (.netOk resGood) (fun _ => 1/2)
        (cancelScanning (onMapClick ⟨10, 20, false⟩ idleState))).trend ≠
      (cancelScanning (onMapClick ⟨10, 20, false⟩ idleState)).trend := by
  have h85 : (startScanningResolveNow (.netOk resGood) (fun _ => 1/2)
      (cancelScanning (onMapClick ⟨10, 20, false⟩ idleState))).metrics.fillPct = 85 := by
    show fillPctOf resGood.volume resGood.max_volume = 85
    unfold fillPctOf capacity jsRound resGood
    norm_num
  refine ⟨rfl, rfl, h85, rfl, ?_, by decide, by decide⟩
  intro h
  rw [h] at h85
  exact absurd h85 (by decide)

/-- C2.  The claim bundles cancellation effects.  The code delivers the
synchronous ones — overlay hidden at once, `isScanning` reset, marker
group cleared, a single informational "Cancelled." toast, no failed-state
styling — but it does *not* signal cancellation: the module-level
`scanController` is never set by the effective `startScanning`, so the
abort branch is dead and the in-flight request's eventual resolution is
applied (here overwriting the metric panel, fill percentage 67), not
ignored. -/
theorem C2_cancel_effects_resolution_not_ignored :
    (cancelScanning (onMapClick ⟨-5, 7, false⟩ idleState)).overlayVisible = false ∧
    (cancelScanning (onMapClick ⟨-5, 7, false⟩ idleState)).isScanning = false ∧
    (cancelScanning (onMapClick ⟨-5, 7, false⟩ idleState)).markerCount = 0 ∧
    (cancelScanning (onMapClick ⟨-5, 7, false⟩ idleState)).statusRed = false ∧
    (cancelScanning (onMapClick ⟨-5, 7, false⟩ idleState)).toasts =
      [("Cancelled.", ToastKind.info)] ∧
    (onMapClick ⟨-5, 7, false⟩ idleState).scanController = false ∧
    (cancelScanning (onMapClick ⟨-5, 7, false⟩ idleState)).scanController = false ∧
    (startScanningResolveNow (.netOk resMid) (fun _ => 1/4)
        (cancelScanning (onMapClick ⟨-5, 7, false⟩ idleState))).metrics.fillPct = 67 ∧
    (startScanningResolveNow (.netOk resMid) (fun _ => 1/4)
        (cancelScanning (onMapClick ⟨-5, 7, false⟩ idleState))).metrics ≠
      (cancelScanning (onMapClick ⟨-5, 7, false⟩ idleState)).metrics := by
  have h67 : (startScanningResolveNow (.netOk resMid) (fun _ => 1/4)
      (cancelScanning (onMapClick ⟨-5, 7, false⟩ idleState))).metrics.fillPct = 67 := by
    show fillPctOf resMid.volume resMid.max_volume = 67
    unfold fillPctOf capacity jsRound resMid
    norm_num
  refine ⟨rfl, rfl, rfl, rfl, rfl, rfl, rfl, h67, ?_⟩
  intro h
  rw [h] at h67
  exact absurd h67 (by decide)

/-- C5.  A transport-successful response whose body carries a non-empty
`error` field resolves to exactly the same catch block as a transport
failure: `startScanningResolveNow` maps both onto `scanCatch`, which
shows an error toast, marks the status text "Error." with the red failure
class, and leaves metrics, charts, layer control, and the cached
area/volume/layers untouched. -/
theorem C5_app_error_same_failure_path (s : AppState) (d : AnalysisData)
    (msg : String) (rand : ℕ → ℚ)
    (herr : d.error = some msg) (hne : msg ≠ "") :
    startScanningResolveNow (.netOk d) rand s
      = scanCatch msg { s with pendingRequest := none } ∧
    startScanningResolveNow .netFail rand s
      = scanCatch "Analysis Service Failed" { s with pendingRequest := none } ∧
    ∀ (m : String) (t : AppState),
      (scanCatch m t).metrics = t.metrics ∧
      (scanCatch m t).trend = t.trend ∧
      (scanCatch m t).seasonalChart = t.seasonalChart ∧
      (scanCatch m t).layerCtl = t.layerCtl ∧
      (scanCatch m t).currentArea = t.currentArea ∧
      (scanCatch m t).currentVol = t.currentVol ∧
      (scanCatch m t).stateLayers = t.stateLayers ∧
      (scanCatch m t).statusText = "Error." ∧
      (scanCatch m t).statusRed = true ∧
      (scanCatch m t).toasts = t.toasts ++
        [("Analysis Failed: " ++ (if m = "" then "Unknown Error" else m),
          ToastKind.error)] := by
  refine ⟨?_, rfl, ?_⟩
  · simp [startScanningResolveNow, truthy, herr, hne]
  · intro m t
    simp [scanCatch, showToast]

/-- Witness for `C5_app_error_same_failure_path` at a concrete state and
response. -/
theorem C5_app_error_same_failure_path_witness :
    startScanningResolveNow (.netOk resErr) (fun _ => 0) idleState
      = scanCatch "X" { idleState with pendingRequest := none } :=
  (C5_app_error_same_failure_path idleState resErr "X" (fun _ => 0)
    rfl (by decide)).1

/-- C8.  The claim says `cancelScanning` is a no-op when no scan is
active.  It is not: even from an idle state it clears the marker layer
group and appends a "Cancelled." toast, so the state changes. -/
theorem C8_cancel_idle_counterexample :
    ({ idleState with markerCount := 1 } : AppState).isScanning = false ∧
    (cancelScanning { idleState with markerCount := 1 }).markerCount = 0 ∧
    (cancelScanning { idleState with markerCount := 1 }).toasts =
      [("Cancelled.", ToastKind.info)] ∧
    cancelScanning { idleState with markerCount := 1 } ≠
      { idleState with markerCount := 1 } := by
  refine ⟨rfl, rfl, rfl, ?_⟩
  intro h
  have := congrArg AppState.toasts h
  simp [cancelScanning, showToast, idleState] at this

/-- C8, amended.  `cancelScanning` runs unconditionally: from any state —
scanning or not — it hides the overlay, resets `isScanning`, clears the
marker layer group, leaves `scanController` null, and appends an
informational "Cancelled." toast; when no scan is active this is not a
no-op. -/
theorem C8_cancel_unconditional (s : AppState) :
    cancelScanning s =
      { s with scanController := false, overlayVisible := false,
               isScanning := false, markerCount := 0,
               toasts := s.toasts ++ [("Cancelled.", ToastKind.info)] } := by
  cases s with
  | mk mode clat clng carea cvol isScan lay dlat dlng mc ov st sr me tr sea lc lph ts sc pr =>
    cases sc <;> simp [cancelScanning, showToast]

/-- C9.  While `isScanning` is true, `onMapClick` returns immediately:
the state — coordinates, coordinate display, marker group, pending
request — is unchanged and no new scan begins, so the supersede path is
unreachable from map gestures. -/
theorem C9_map_click_ignored_while_scanning (e : ClickEvent) (s : AppState)
    (h : s.isScanning = true) : onMapClick e s = s := by
  simp [onMapClick, h]

/-- Witness for `C9_map_click_ignored_while_scanning` at a concrete
scanning state. -/
theorem C9_map_click_ignored_witness :
    onMapClick ⟨1, 2, false⟩ { idleState with isScanning := true } =
      { idleState with isScanning := true } :=
  C9_map_click_ignored_while_scanning ⟨1, 2, false⟩
    { idleState with isScanning := true } rfl

/-- C10, counterexample.  The claim asserts that for every `v ≥ 0` each
synthesized trend point lies in `[0.8*v, 1.2*v)`.  At `v = 0` every point
equals `0` while the interval `[0, 0)` is empty, so the claim fails (with
the perfectly valid random draw `0`). -/
theorem C10_empty_interval_counterexample :
    ((0:ℚ) ≤ 0 ∧ (0:ℚ) < 1) ∧
    (updateCharts 0 none (fun _ => 0) idleState).trend = trendSim 0 (fun _ => 0) ∧
    (trendSim 0 (fun _ => 0)).length = 12 ∧
    (0:ℚ) ∈ trendSim 0 (fun _ => 0) ∧
    ¬ ((4/5 : ℚ) * 0 ≤ 0 ∧ (0:ℚ) < (6/5 : ℚ) * 0) := by
  refine ⟨by norm_num, rfl, by simp [trendSim], ?_, by norm_num⟩
  exact List.mem_map.mpr ⟨0, by simp, by norm_num⟩

/-- C10, amended.  The 12-point monthly trend is synthesized from the
volume and fresh random draws, never taken from the result: for `v > 0`
each of the 12 points lies in `[0.8*v, 1.2*v)`; two valid random streams
can generally produce different trend arrays; and the seasonal chart is
updated exactly when the result's `seasonal` field is present, otherwise
left unchanged. -/
theorem C10_trend_synthesis (vol : ℚ) (se : Seasonal) (seasonal : Option Seasonal)
    (rand : ℕ → ℚ) (s : AppState)
    (hr : ∀ i, 0 ≤ rand i ∧ rand i < 1) (hv : 0 < vol) :
    (updateCharts vol seasonal rand s).trend = trendSim vol rand ∧
    (trendSim vol rand).length = 12 ∧
    (∀ p ∈ trendSim vol rand, 4/5 * vol ≤ p ∧ p < 6/5 * vol) ∧
    (updateCharts vol (some se) rand s).seasonalChart =
      [se.summer, se.monsoon, se.winter] ∧
    (updateCharts vol none rand s).seasonalChart = s.seasonalChart ∧
    (∃ r1 r2 : ℕ → ℚ, (∀ i, 0 ≤ r1 i ∧ r1 i < 1) ∧ (∀ i, 0 ≤ r2 i ∧ r2 i < 1) ∧
      trendSim vol r1 ≠ trendSim vol r2) := by
  refine ⟨?_, by simp [trendSim], ?_, rfl, rfl, ?_⟩
  · cases seasonal <;> rfl
  · intro p hp
    simp only [trendSim, List.mem_map] at hp
    obtain ⟨i, -, rfl⟩ := hp
    have h1 := (hr i).1
    have h2 := (hr i).2
    constructor <;> nlinarith
  · refine ⟨fun _ => 0, fun _ => 1/2, by intro i; norm_num, by intro i; norm_num,
      fun heq => ?_⟩
    have h := congrArg List.head? heq
    have h12 : List.range 12 = 0 :: [1, 2, 3, 4, 5, 6, 7, 8, 9, 10, 11] := rfl
    simp only [trendSim, h12, List.map_cons, List.head?_cons, Option.some.injEq] at h
    nlinarith

/-- Witness for `C10_trend_synthesis` at `vol = 1` with the constant
draw `1/2`. -/
theorem C10_trend_synthesis_witness :
    (updateCharts 1 none (fun _ => 1/2) idleState).trend =
      trendSim 1 (fun _ => 1/2) :=
  (C10_trend_synthesis 1 ⟨1, 2, 3⟩ none (fun _ => 1/2) idleState
    (fun i => by norm_num) (by norm_num)).1

/-- Witness for `C3_fill_formula_amended` at the spec's two worked
examples. -/
theorem C3_fill_formula_amended_witness :
    (metricsView resExample).fillPct = 85 ∧
    capacity resMid2.max_volume resMid2.volume = 339/50 ∧
    (metricsView resMid2).fillPct = 67 :=
  ⟨C3_fill_formula_amended.2.1 resExample rfl rfl,
   (C3_fill_formula_amended.2.2 resMid2 rfl rfl).1,
   (C3_fill_formula_amended.2.2 resMid2 rfl rfl).2⟩

/-- Witness for `C6_at_most_one_overlay_instance` at a concrete default
flag, event sequence, and closure state. -/
theorem C6_at_most_one_overlay_instance_witness :
    ((([true, true] : List Bool).foldl (fun st b => toggleLayer b st)
        (initToggle true)).group).length ≤ 1 ∧
    ((toggleLayer true ⟨some 0, [0], 1⟩).group = [1] ∧
      0 ∉ (toggleLayer true ⟨some 0, [0], 1⟩).group) :=
  ⟨(C6_at_most_one_overlay_instance true [true, true]).1,
   (C6_at_most_one_overlay_instance true [true, true]).2 ⟨some 0, [0], 1⟩
     ⟨rfl, by decide⟩ 0 rfl⟩

/-- Witness for `C7_two_default_toggles`, instantiating its quantified
conjuncts at the concrete analytics toggle. -/
theorem C7_two_default_toggles_witness :
    (⟨LayerKey.analytics, "Depth Contours", "#ffffff", true, true⟩ : LayerToggle).checked
      = true ∧
    (⟨LayerKey.analytics, "Depth Contours", "#ffffff", true, true⟩ : LayerToggle).overlayActive
      = true :=
  C7_two_default_toggles.2.2.1
    ⟨LayerKey.analytics, "Depth Contours", "#ffffff", true, true⟩ (by decide)

end Aquasentinel
